import Mathlib

/-! A verification development for a rock–paper–scissors–lizard–spock hand
gesture recogniser.  The embedded program consists of
* the geometric feature extractor and rule-based classifier `classifySign`
  (classifySign.ts),
* the newer, diverged copy of that module (`classifySignNew`), with named
  hard/soft thumb thresholds, a borderline spock rule and a loose paper
  fallback,
* the temporal majority stabiliser `stableGesture` (HandDetector.tsx, present
  identically in both versions of that component), and
* the game outcome table `WIN_MAP` / `decideOutcome` (second HandDetector
  version).
Coordinates are real numbers; `Math.hypot` is embedded as the real square
root of the sum of squares. -/

namespace RPSLS

/-! ## Temporal stabiliser (HandDetector.tsx, both versions) -/

/-- Keys of the frequency table in insertion order: JavaScript object string
keys enumerate in first-insertion order, so this lists the distinct labels of
the buffer ordered by first appearance (oldest first). -/
def firstKeys : List String → List String
  | [] => []
  | a :: l => a :: (firstKeys l).filter (fun x => x != a)

/-- Head of the frequency entries after the stable sort by descending count:
the first key, in first-appearance order, achieving the maximal count.
Array.prototype.sort is stable, so the head of the sorted entry list is the
earliest-inserted key whose count is maximal; the fold computes exactly that
by replacing the current best only on a strictly larger count. -/
def topKey (b : List String) : String :=
  match firstKeys b with
  | [] => ""
  | k :: ks => ks.foldl (fun best k2 => if b.count best < b.count k2 then k2 else best) k

/-- One push into the bounded history: append the new label, then drop the
oldest entry when the buffer length exceeds the capacity n (push / shift). -/
def pushTrim (buffer : List String) (label : String) (n : ℕ) : List String :=
  if n < (buffer ++ [label]).length then (buffer ++ [label]).tail else buffer ++ [label]

/-- stableGesture: push the raw label into the window, then return the mode
of the window (ties broken by first appearance) together with the updated
buffer.  The source keeps the buffer in a mutable ref and defaults the
capacity argument to 5; the buffer is threaded explicitly here. -/
def stableGesture (buffer : List String) (label : String) (n : ℕ) : String × List String :=
  (topKey (pushTrim buffer label n), pushTrim buffer label n)

/-- Pushing the same label k consecutive times at the default capacity 5. -/
def pushRepeat (buffer : List String) (label : String) : ℕ → List String
  | 0 => buffer
  | k + 1 => pushRepeat (pushTrim buffer label 5) label k

/-! ## Game outcome table (second HandDetector version) -/

inductive Gesture where
  | rock
  | paper
  | scissors
  | lizard
  | spock
  deriving DecidableEq, Fintype

/-- WIN_MAP: for each gesture, the list of gestures it defeats. -/
def WIN_MAP : Gesture → List Gesture
  | .rock => [.scissors, .lizard]
  | .paper => [.rock, .spock]
  | .scissors => [.paper, .lizard]
  | .lizard => [.spock, .paper]
  | .spock => [.scissors, .rock]

/-- decideOutcome: tie on equal gestures, otherwise the player wins exactly
when the computer's gesture is in the player's WIN_MAP row. -/
def decideOutcome (player computer : Gesture) : String :=
  if player = computer then "tie"
  else if computer ∈ WIN_MAP player then "player" else "computer"

/-! ## Geometry (classifySign.ts) -/

/-- A 2D landmark point (the classifier reads only x and y). -/
structure Pt where
  x : ℝ
  y : ℝ

/-- A hand pose: 21 landmarks indexed by the MediaPipe convention. -/
abbrev Pose := Fin 21 → Pt

def WRIST : Fin 21 := 0
def TIP_I : Fin 21 := 8
def TIP_M : Fin 21 := 12
def TIP_R : Fin 21 := 16
def TIP_P : Fin 21 := 20
def TIP_T : Fin 21 := 4
def PIP_I : Fin 21 := 6
def PIP_M : Fin 21 := 10
def PIP_R : Fin 21 := 14
def PIP_P : Fin 21 := 18
def INDEX_MCP : Fin 21 := 5

/-- Euclidean distance between two landmarks (Math.hypot of the coordinate
differences). -/
noncomputable def dist (L : Pose) (a b : Fin 21) : ℝ :=
  Real.sqrt (((L a).x - (L b).x) ^ 2 + ((L a).y - (L b).y) ^ 2)

/-- The landmarks in iteration order, as in `for (const lm of landmarks)`. -/
def poseList (L : Pose) : List Pt :=
  [L 0, L 1, L 2, L 3, L 4, L 5, L 6, L 7, L 8, L 9, L 10,
   L 11, L 12, L 13, L 14, L 15, L 16, L 17, L 18, L 19, L 20]

/-- Minimum x over the pose.  The source seeds the loop with +Infinity; in
the embedding the seed is the first landmark's coordinate, which is itself an
element of the list, so the folds agree. -/
noncomputable def minX (L : Pose) : ℝ := ((poseList L).map Pt.x).foldl min (L 0).x

noncomputable def maxX (L : Pose) : ℝ := ((poseList L).map Pt.x).foldl max (L 0).x

noncomputable def minY (L : Pose) : ℝ := ((poseList L).map Pt.y).foldl min (L 0).y

noncomputable def maxY (L : Pose) : ℝ := ((poseList L).map Pt.y).foldl max (L 0).y

/-- Hand scale: the bounding-box diagonal, each extent floored to 1e-6
before combining (Math.hypot of the floored extents). -/
noncomputable def scale (L : Pose) : ℝ :=
  Real.sqrt (max (maxX L - minX L) 1e-6 ^ 2 + max (maxY L - minY L) 1e-6 ^ 2)

/-- norm: divide a raw length by the hand scale. -/
noncomputable def norm (L : Pose) (v : ℝ) : ℝ := v / scale L

/-- The normalised margin by which a tip is farther from the wrist than its
PIP joint; shared by the extension and the bent tests. -/
noncomputable def extDiff (L : Pose) (tip pip : Fin 21) : ℝ :=
  norm L (dist L tip WRIST - dist L pip WRIST)

/-- fartherThan: the extension test, margin strictly above 0.07. -/
noncomputable def fartherThan (L : Pose) (tip pip : Fin 21) : Bool :=
  decide (extDiff L tip pip > 0.07)

/-- bent: clearly not extended, margin strictly below 0.03. -/
noncomputable def bent (L : Pose) (tip pip : Fin 21) : Bool :=
  decide (extDiff L tip pip < 0.03)

noncomputable def thumbToIndexMCP (L : Pose) : ℝ := norm L (dist L TIP_T INDEX_MCP)

noncomputable def gapIM (L : Pose) : ℝ := norm L (dist L TIP_I TIP_M)

noncomputable def gapMR (L : Pose) : ℝ := norm L (dist L TIP_M TIP_R)

noncomputable def gapRP (L : Pose) : ℝ := norm L (dist L TIP_R TIP_P)

/-- Mean of the three fingertip gaps. -/
noncomputable def gapMean (L : Pose) : ℝ := (gapIM L + gapMR L + gapRP L) / 3

/-- Population standard deviation of the three fingertip gaps. -/
noncomputable def gapStdev (L : Pose) : ℝ :=
  Real.sqrt (((gapIM L - gapMean L) ^ 2 + (gapMR L - gapMean L) ^ 2 +
    (gapRP L - gapMean L) ^ 2) / 3)

/-- Coefficient of variation of the gaps; 1 when the mean is not positive. -/
noncomputable def cvOf (L : Pose) : ℝ :=
  if gapMean L > 0 then gapStdev L / gapMean L else 1

/-- Average of the two outer gaps, denominator of the spock ratio. -/
noncomputable def pairAvg (L : Pose) : ℝ := (gapIM L + gapRP L) / 2

/-- The spock "V" ratio, with the denominator floored to 1e-6. -/
noncomputable def spockRatioOf (L : Pose) : ℝ := gapMR L / max 1e-6 (pairAvg L)

/-- clamp, as in the source `clamp(v, a, b) = max(a, min(b, v))`; the
classifier calls it with a = -1 and b = 1. -/
def clamp (v a b : ℝ) : ℝ := max a (min b v)

/-- Length of the tip − pip vector with the zero case replaced by 1e-6,
as in `Math.hypot(dx, dy) || 1e-6`. -/
noncomputable def dirLen (L : Pose) (tip pip : Fin 21) : ℝ :=
  if Real.sqrt (((L tip).x - (L pip).x) ^ 2 + ((L tip).y - (L pip).y) ^ 2) = 0 then 1e-6
  else Real.sqrt (((L tip).x - (L pip).x) ^ 2 + ((L tip).y - (L pip).y) ^ 2)

/-- Finger direction unit vector tip − pip. -/
noncomputable def dirUnit (L : Pose) (tip pip : Fin 21) : ℝ × ℝ :=
  (((L tip).x - (L pip).x) / dirLen L tip pip, ((L tip).y - (L pip).y) / dirLen L tip pip)

/-- Cosine similarity of the index and middle direction vectors, clamped to
[-1, 1]. -/
noncomputable def cosIMOf (L : Pose) : ℝ :=
  clamp ((dirUnit L TIP_I PIP_I).1 * (dirUnit L TIP_M PIP_M).1 +
    (dirUnit L TIP_I PIP_I).2 * (dirUnit L TIP_M PIP_M).2) (-1) 1

/-! ## Metrics bundle and classifier (classifySign.ts) -/

/-- SignMetrics, field for field as in the source. -/
structure SignMetrics where
  gapIM : ℝ
  gapMR : ℝ
  gapRP : ℝ
  spockRatio : ℝ
  cv : ℝ
  thumbToIndexMCP : ℝ
  thumbOut : Bool
  thumbAlong : Bool
  indexExt : Bool
  middleExt : Bool
  ringExt : Bool
  pinkyExt : Bool
  extendedCount : ℕ
  cosIM : ℝ

/-- The metrics bundle computed by classifySign from one pose. -/
noncomputable def computeMetrics (L : Pose) : SignMetrics where
  gapIM := gapIM L
  gapMR := gapMR L
  gapRP := gapRP L
  spockRatio := spockRatioOf L
  cv := cvOf L
  thumbToIndexMCP := thumbToIndexMCP L
  thumbOut := decide (thumbToIndexMCP L > 0.34)
  thumbAlong := decide (thumbToIndexMCP L < 0.28)
  indexExt := fartherThan L TIP_I PIP_I
  middleExt := fartherThan L TIP_M PIP_M
  ringExt := fartherThan L TIP_R PIP_R
  pinkyExt := fartherThan L TIP_P PIP_P
  extendedCount := (fartherThan L TIP_I PIP_I).toNat + (fartherThan L TIP_M PIP_M).toNat +
    (fartherThan L TIP_R PIP_R).toNat + (fartherThan L TIP_P PIP_P).toNat
  cosIM := cosIMOf L

/-- The threshold table T of the source. -/
def T_scissorsIMMaxGap : ℝ := 0.28

def T_scissorsCosMin : ℝ := 0.80

def T_paperCV : ℝ := 0.22

def T_spockRatio : ℝ := 1.6

def T_spockGapMR : ℝ := 0.23

def T_pairTight : ℝ := 0.24

/-- The scissors rule: index and middle extended, ring and pinky not
extended and clearly bent, index–middle gap small, directions aligned. -/
abbrev scissorsCond (m : SignMetrics) (bentR bentP : Bool) : Prop :=
  m.indexExt = true ∧ m.middleExt = true ∧ m.ringExt = false ∧ m.pinkyExt = false ∧
    bentR = true ∧ bentP = true ∧
    m.gapIM ≤ T_scissorsIMMaxGap ∧ m.cosIM ≥ T_scissorsCosMin

/-- The primary spock rule: all four extended, strong V, tight pairs, thumb
out. -/
abbrev spockCond (m : SignMetrics) : Prop :=
  m.extendedCount = 4 ∧ m.spockRatio > T_spockRatio ∧
    m.gapIM < T_pairTight ∧ m.gapRP < T_pairTight ∧ m.gapMR > T_spockGapMR ∧
    m.thumbOut = true

/-- The paper rule: all four extended, uniform spread, no big V, thumb
along the hand. -/
abbrev paperCond (m : SignMetrics) : Prop :=
  m.extendedCount = 4 ∧ m.cv < T_paperCV ∧ m.spockRatio ≤ T_spockRatio ∧
    m.thumbAlong = true

/-- The rock rule: at most one finger extended and thumb not out. -/
abbrev rockCond (m : SignMetrics) : Prop := m.extendedCount ≤ 1 ∧ m.thumbOut = false

/-- The lizard rule: thumb out, middle and ring not extended, index or
pinky extended. -/
abbrev lizardCond (m : SignMetrics) : Prop :=
  m.thumbOut = true ∧ m.middleExt = false ∧ m.ringExt = false ∧
    (m.indexExt = true ∨ m.pinkyExt = true)

/-- The spock tie-breaker. -/
abbrev spockTieCond (m : SignMetrics) : Prop :=
  m.extendedCount = 4 ∧ m.thumbOut = true ∧ m.spockRatio > 1.35 ∧ m.gapMR > 0.20

/-- The lizard tie-breaker: at most two fingers extended and thumb out. -/
abbrev lizardTieCond (m : SignMetrics) : Prop := m.extendedCount ≤ 2 ∧ m.thumbOut = true

/-- The ordered decision list of classifySign, over an arbitrary metrics
bundle plus the two bent flags it reads directly from the pose.  Rules in
source order: scissors, spock, paper, rock, lizard, then the two
tie-breakers, then "unknown". -/
noncomputable def classifyFromMetrics (m : SignMetrics) (bentR bentP : Bool) : String :=
  if scissorsCond m bentR bentP then "scissors"
  else if spockCond m then "spock"
  else if paperCond m then "paper"
  else if rockCond m then "rock"
  else if lizardCond m then "lizard"
  else if spockTieCond m then "spock"
  else if lizardTieCond m then "lizard"
  else "unknown"

/-- classifySign: the label of the decision list together with the metrics
bundle. -/
noncomputable def classifySign (L : Pose) : String × SignMetrics :=
  (classifyFromMetrics (computeMetrics L) (bent L TIP_R PIP_R) (bent L TIP_P PIP_P),
   computeMetrics L)

/-! ## Stabiliser lemmas -/

/-- Every key of the frequency table occurs in the buffer. -/
theorem firstKeys_subset : ∀ (b : List String), ∀ x ∈ firstKeys b, x ∈ b := by
  intro b
  induction b with
  | nil => simp [firstKeys]
  | cons a l ih =>
    intro x hx
    rw [firstKeys] at hx
    rcases List.mem_cons.mp hx with h | h
    · simp [h]
    · exact List.mem_cons_of_mem a (ih x (List.mem_of_mem_filter h))

/-- The fold that selects the top frequency entry only ever returns one of
the candidate keys. -/
theorem foldl_pick_mem (b : List String) :
    ∀ (ks : List String) (acc : String), acc ∈ b → (∀ x ∈ ks, x ∈ b) →
      (ks.foldl (fun best k2 => if b.count best < b.count k2 then k2 else best) acc) ∈ b := by
  intro ks
  induction ks with
  | nil =>
    intro acc ha _
    simpa using ha
  | cons k ks ih =>
    intro acc ha hks
    simp only [List.foldl_cons]
    by_cases hc : b.count acc < b.count k
    · exact ih _ (by simpa [hc] using hks k (by simp)) fun x hx => hks x (by simp [hx])
    · exact ih _ (by simpa [hc] using ha) fun x hx => hks x (by simp [hx])

/-- The stable label is always an element of the (nonempty) buffer. -/
theorem topKey_mem (b : List String) (hb : b ≠ []) : topKey b ∈ b := by
  unfold topKey
  cases b with
  | nil => exact absurd rfl hb
  | cons a l =>
    rw [firstKeys]
    exact foldl_pick_mem _ _ _ (by simp)
      fun x hx => firstKeys_subset (a :: l) x (by rw [firstKeys]; exact List.mem_cons_of_mem a hx)

/-- A push never grows a within-capacity buffer beyond the capacity 5. -/
theorem pushTrim_length (b : List String) (l : String) (hb : b.length ≤ 5) :
    (pushTrim b l 5).length ≤ 5 := by
  unfold pushTrim
  split
  · rename_i h
    simp only [List.length_tail, List.length_append, List.length_singleton] at h ⊢
    omega
  · rename_i h
    simp only [not_lt, List.length_append, List.length_singleton] at h ⊢
    omega

/-- A push from a within-capacity buffer yields a nonempty buffer. -/
theorem pushTrim_ne_nil (b : List String) (l : String) (hb : b.length ≤ 5) :
    pushTrim b l 5 ≠ [] := by
  unfold pushTrim
  split
  · rename_i h
    apply List.length_pos.mp
    simp only [List.length_tail, List.length_append, List.length_singleton] at h ⊢
    omega
  · simp

/-- Closed form for repeated pushes of one label at capacity 5: the buffer
becomes the trailing window of the old contents followed by the copies of
the label. -/
theorem pushRepeat_closed (l : String) :
    ∀ (k : ℕ) (b : List String), b.length ≤ 5 →
      pushRepeat b l k = (b ++ List.replicate k l).drop (b.length + k - 5) := by
  intro k
  induction k with
  | zero =>
    intro b hb
    rw [pushRepeat]
    rw [Nat.add_zero, Nat.sub_eq_zero_of_le hb]
    simp
  | succ k ih =>
    intro b hb
    rw [pushRepeat]
    by_cases h5 : b.length = 5
    · cases b with
      | nil => simp at h5
      | cons hd tl =>
        have htl : tl.length = 4 := by simpa using h5
        have hpt : pushTrim (hd :: tl) l 5 = tl ++ [l] := by
          unfold pushTrim
          rw [if_pos (by simp; omega)]
          simp
        rw [hpt, ih _ (by simp [htl])]
        have e1 : (tl ++ [l]).length + k - 5 = k := by simp [htl]
        have e2 : (hd :: tl).length + (k + 1) - 5 = k + 1 := by simp [htl]
        rw [e1, e2]
        rw [List.append_assoc, List.singleton_append, ← List.replicate_succ]
        simp
    · have hlt : b.length < 5 := lt_of_le_of_ne hb h5
      have hpt : pushTrim b l 5 = b ++ [l] := by
        unfold pushTrim
        rw [if_neg (by simp; omega)]
      rw [hpt, ih _ (by simp; omega)]
      rw [List.append_assoc, List.singleton_append, ← List.replicate_succ]
      have e1 : (b ++ [l]).length + k - 5 = b.length + (k + 1) - 5 := by simp; omega
      rw [e1]

/-- Five pushes of one label flush a within-capacity buffer entirely. -/
theorem pushRepeat_five (b : List String) (l : String) (hb : b.length ≤ 5) :
    pushRepeat b l 5 = List.replicate 5 l := by
  rw [pushRepeat_closed l 5 b hb]
  have e : b.length + 5 - 5 = b.length := by omega
  rw [e]
  exact List.drop_left b (List.replicate 5 l)

/-- Repeated pushing unfolded from the right. -/
theorem pushRepeat_succ_right (l : String) :
    ∀ (k : ℕ) (b : List String), pushRepeat b l (k + 1) = pushTrim (pushRepeat b l k) l 5 := by
  intro k
  induction k with
  | zero =>
    intro b
    rw [pushRepeat, pushRepeat, pushRepeat]
  | succ k ih =>
    intro b
    rw [pushRepeat, ih (pushTrim b l 5), pushRepeat]

/-- The frequency table of a constant buffer has a single key. -/
theorem firstKeys_replicate (l : String) : ∀ k, firstKeys (List.replicate (k + 1) l) = [l] := by
  intro k
  induction k with
  | zero => rw [List.replicate_one, firstKeys, firstKeys]; simp
  | succ k ih =>
    rw [List.replicate_succ, firstKeys, ih]
    simp

/-- The stable label of a constant buffer is its label. -/
theorem topKey_replicate (l : String) (k : ℕ) : topKey (List.replicate (k + 1) l) = l := by
  unfold topKey
  rw [firstKeys_replicate]
  simp

/-! ## Claim theorems: stabiliser and outcome table -/

/-- C4: starting from an empty history, pushing a, b, a, b (a ≠ b) at
capacity 4 makes the fourth returned stable label a: on a tie at the maximal
count, the label appearing first in the window (oldest to newest) wins. -/
theorem C4_stabilizer_tiebreak (a b : String) (h : a ≠ b) :
    (stableGesture (pushTrim (pushTrim (pushTrim [] a 4) b 4) a 4) b 4).1 = a := by
  have hab : (a == b) = false := beq_eq_false_iff_ne.mpr h
  have hba : (b == a) = false := beq_eq_false_iff_ne.mpr (Ne.symm h)
  have h1 : pushTrim [] a 4 = [a] := by simp [pushTrim]
  have h2 : pushTrim [a] b 4 = [a, b] := by simp [pushTrim]
  have h3 : pushTrim [a, b] a 4 = [a, b, a] := by simp [pushTrim]
  have h4 : pushTrim [a, b, a] b 4 = [a, b, a, b] := by simp [pushTrim]
  rw [stableGesture, h1, h2, h3, h4]
  rw [topKey, firstKeys, firstKeys, firstKeys, firstKeys, firstKeys]
  simp only [List.filter_cons, List.filter_nil, bne, hab, hba, beq_self_eq_true,
    Bool.not_true, Bool.not_false, ite_true, ite_false, cond_true, cond_false]
  simp [List.count_cons, hab, hba, h, Ne.symm h]

/-- C4 witness: the tie-break theorem at the concrete labels rock and
paper. -/
theorem C4_stabilizer_tiebreak_witness :
    "rock" ≠ "paper" ∧
      (stableGesture (pushTrim (pushTrim (pushTrim [] "rock" 4) "paper" 4) "rock" 4)
        "paper" 4).1 = "rock" :=
  ⟨by decide, C4_stabilizer_tiebreak "rock" "paper" (by decide)⟩

/-- C6: pushing the same label five consecutive times at the default
capacity 5 makes the fifth returned stable label that label, whatever the
(within-capacity) prior history held. -/
theorem C6_stabilizer_idempotence (b : List String) (l : String) (hb : b.length ≤ 5) :
    (stableGesture (pushRepeat b l 4) l 5).1 = l := by
  have hbuf : pushTrim (pushRepeat b l 4) l 5 = List.replicate 5 l := by
    rw [← pushRepeat_succ_right l 4 b]
    exact pushRepeat_five b l hb
  rw [stableGesture, hbuf]
  exact topKey_replicate l 4

/-- C6 witness: a concrete prior history of three labels, flushed by five
pushes of spock. -/
theorem C6_stabilizer_idempotence_witness :
    (["rock", "paper", "rock"] : List String).length ≤ 5 ∧
      (stableGesture (pushRepeat ["rock", "paper", "rock"] "spock" 4) "spock" 5).1 = "spock" :=
  ⟨by decide, C6_stabilizer_idempotence ["rock", "paper", "rock"] "spock" (by decide)⟩

/-- C8: pushing into a within-capacity history keeps the history at no more
than 5 labels, the returned stable label is an element of the updated
history (hence was pushed within the last 5 calls), and the very first push
returns its own argument. -/
theorem C8_stabilizer_invariant (b : List String) (l : String) (hb : b.length ≤ 5) :
    (pushTrim b l 5).length ≤ 5 ∧
      (stableGesture b l 5).1 ∈ (stableGesture b l 5).2 ∧
      (stableGesture [] l 5).1 = l := by
  refine ⟨pushTrim_length b l hb, ?_, ?_⟩
  · rw [stableGesture]
    exact topKey_mem _ (pushTrim_ne_nil b l hb)
  · rw [stableGesture]
    have h1 : pushTrim [] l 5 = [l] := by simp [pushTrim]
    rw [h1]
    exact topKey_replicate l 0

/-- C8 witness: the invariant at a concrete two-label history. -/
theorem C8_stabilizer_invariant_witness :
    (["rock", "paper"] : List String).length ≤ 5 ∧
      ((pushTrim ["rock", "paper"] "lizard" 5).length ≤ 5 ∧
        (stableGesture ["rock", "paper"] "lizard" 5).1 ∈
          (stableGesture ["rock", "paper"] "lizard" 5).2 ∧
        (stableGesture [] "lizard" 5).1 = "lizard") :=
  ⟨by decide, C8_stabilizer_invariant ["rock", "paper"] "lizard" (by decide)⟩

/-- C10: decideOutcome is a strict tournament on the five gestures: every
gesture ties with itself, and on every pair of distinct gestures the two
orders name opposite winners and some side does win. -/
theorem C10_decideOutcome_tournament :
    (∀ g : Gesture, decideOutcome g g = "tie") ∧
      ∀ g1 g2 : Gesture, g1 ≠ g2 →
        ((decideOutcome g1 g2 = "player" ↔ decideOutcome g2 g1 = "computer") ∧
          (decideOutcome g1 g2 = "player" ∨ decideOutcome g1 g2 = "computer")) := by
  decide

/-! ## Claim theorems: classifier totality and rule order -/

/-- The positivity facts behind the four guarded denominators of the
feature extractor. -/
theorem scale_pos (L : Pose) : 0 < scale L := by
  apply Real.sqrt_pos.mpr
  have h1 : (1e-6 : ℝ) ≤ max (maxX L - minX L) 1e-6 := le_max_right _ _
  have h2 : (1e-6 : ℝ) ≤ max (maxY L - minY L) 1e-6 := le_max_right _ _
  nlinarith

/-- The direction-vector denominator is always positive. -/
theorem dirLen_pos (L : Pose) (tip pip : Fin 21) : 0 < dirLen L tip pip := by
  unfold dirLen
  split
  · norm_num
  · rename_i h
    exact lt_of_le_of_ne (Real.sqrt_nonneg _) (Ne.symm h)

/-- C1: classifySign is total on every structurally valid pose: each of its
guarded denominators (bounding-box scale, spock-ratio pair average,
direction-vector lengths, and the gap mean tested before dividing) is
protected, and the returned label is one of the six possible labels. -/
theorem C1_classifySign_total (L : Pose) :
    (classifySign L).1 ∈ (["rock", "paper", "scissors", "lizard", "spock", "unknown"] :
      List String) ∧
      0 < scale L ∧
      0 < max 1e-6 (pairAvg L) ∧
      0 < dirLen L TIP_I PIP_I ∧
      0 < dirLen L TIP_M PIP_M ∧
      (0 < gapMean L ∨ cvOf L = 1) := by
  refine ⟨?_, scale_pos L, lt_of_lt_of_le (by norm_num) (le_max_left _ _),
    dirLen_pos L TIP_I PIP_I, dirLen_pos L TIP_M PIP_M, ?_⟩
  · unfold classifySign classifyFromMetrics
    split_ifs <;> simp
  · by_cases h : 0 < gapMean L
    · exact Or.inl h
    · refine Or.inr ?_
      unfold cvOf
      rw [if_neg h]

/-- C5: a metrics bundle that satisfies the scissors rule is classified as
scissors even when it also satisfies the soft lizard tie-break (at most two
fingers extended, thumb outward): the decision list is evaluated in order
and the scissors rule comes first. -/
theorem C5_rule_order_scissors_first (L : Pose)
    (hs : scissorsCond (computeMetrics L) (bent L TIP_R PIP_R) (bent L TIP_P PIP_P))
    (hl : lizardTieCond (computeMetrics L)) :
    (classifySign L).1 = "scissors" := by
  unfold classifySign classifyFromMetrics
  rw [if_pos hs]

/-! ## Evaluation helpers for concrete poses -/

/-- Square-root evaluation at a perfect square. -/
theorem sqrt_val {a b : ℝ} (hb : 0 ≤ b) (h : b ^ 2 = a) : Real.sqrt a = b := by
  rw [← h, Real.sqrt_sq hb]

/-- Distance evaluation from the four coordinates. -/
theorem dist_eval (L : Pose) (a b : Fin 21) (xa ya xb yb d : ℝ)
    (hax : (L a).x = xa) (hay : (L a).y = ya) (hbx : (L b).x = xb) (hby : (L b).y = yb)
    (hd : 0 ≤ d) (h : d ^ 2 = (xa - xb) ^ 2 + (ya - yb) ^ 2) :
    dist L a b = d := by
  rw [dist, hax, hay, hbx, hby]
  exact sqrt_val hd h

/-- Extension-margin evaluation from the two wrist distances and the
scale. -/
theorem extDiff_eval (L : Pose) (tip pip : Fin 21) (d1 d2 s : ℝ)
    (h1 : dist L tip WRIST = d1) (h2 : dist L pip WRIST = d2) (hs : scale L = s) :
    extDiff L tip pip = (d1 - d2) / s := by
  rw [extDiff, norm, h1, h2, hs]

theorem computeMetrics_gapIM (L : Pose) : (computeMetrics L).gapIM = gapIM L := rfl

theorem computeMetrics_gapMR (L : Pose) : (computeMetrics L).gapMR = gapMR L := rfl

theorem computeMetrics_gapRP (L : Pose) : (computeMetrics L).gapRP = gapRP L := rfl

theorem computeMetrics_spockRatio (L : Pose) :
    (computeMetrics L).spockRatio = spockRatioOf L := rfl

theorem computeMetrics_cv (L : Pose) : (computeMetrics L).cv = cvOf L := rfl

theorem computeMetrics_thumb (L : Pose) :
    (computeMetrics L).thumbToIndexMCP = thumbToIndexMCP L := rfl

theorem computeMetrics_thumbOut (L : Pose) :
    (computeMetrics L).thumbOut = decide (thumbToIndexMCP L > 0.34) := rfl

theorem computeMetrics_thumbAlong (L : Pose) :
    (computeMetrics L).thumbAlong = decide (thumbToIndexMCP L < 0.28) := rfl

theorem computeMetrics_indexExt (L : Pose) :
    (computeMetrics L).indexExt = fartherThan L TIP_I PIP_I := rfl

theorem computeMetrics_middleExt (L : Pose) :
    (computeMetrics L).middleExt = fartherThan L TIP_M PIP_M := rfl

theorem computeMetrics_ringExt (L : Pose) :
    (computeMetrics L).ringExt = fartherThan L TIP_R PIP_R := rfl

theorem computeMetrics_pinkyExt (L : Pose) :
    (computeMetrics L).pinkyExt = fartherThan L TIP_P PIP_P := rfl

theorem computeMetrics_extendedCount (L : Pose) :
    (computeMetrics L).extendedCount = (fartherThan L TIP_I PIP_I).toNat +
      (fartherThan L TIP_M PIP_M).toNat + (fartherThan L TIP_R PIP_R).toNat +
      (fartherThan L TIP_P PIP_P).toNat := rfl

theorem computeMetrics_cosIM (L : Pose) : (computeMetrics L).cosIM = cosIMOf L := rfl

/-- C10 witness: the tournament statement instantiated at rock versus
paper. -/
theorem C10_decideOutcome_tournament_witness :
    Gesture.rock ≠ Gesture.paper ∧
      ((decideOutcome Gesture.rock Gesture.paper = "player" ↔
          decideOutcome Gesture.paper Gesture.rock = "computer") ∧
        (decideOutcome Gesture.rock Gesture.paper = "player" ∨
          decideOutcome Gesture.rock Gesture.paper = "computer")) :=
  ⟨by decide, C10_decideOutcome_tournament.2 Gesture.rock Gesture.paper (by decide)⟩

/-! ## A concrete pose inside the indeterminate thumb band -/

/-- pose1: wrist at the origin, index and pinky extended, middle and ring
curled, normalised thumb-to-index-MCP distance 0.32 — above the spec's soft
outward threshold 0.31 yet below the hard 0.34 of the code.  The bounding
box is 0.6 by 0.8, so the scale is exactly 1. -/
noncomputable def pose1 : Pose := fun i =>
  if i = 1 then ⟨0, 0.8⟩
  else if i = 4 then ⟨0.28, 0⟩
  else if i = 5 then ⟨0.6, 0⟩
  else if i = 6 then ⟨0, 0.3⟩
  else if i = 8 then ⟨0, 0.5⟩
  else if i = 10 then ⟨0, 0.4⟩
  else if i = 12 then ⟨0, 0.42⟩
  else if i = 14 then ⟨0, 0.4⟩
  else if i = 16 then ⟨0, 0.41⟩
  else if i = 18 then ⟨0, 0.3⟩
  else if i = 20 then ⟨0, 0.52⟩
  else ⟨0, 0⟩

theorem pose1_xs : (poseList pose1).map Pt.x =
    [0, 0, 0, 0, 0.28, 0.6, 0, 0, 0, 0, 0, 0, 0, 0, 0, 0, 0, 0, 0, 0, 0] := rfl

theorem pose1_ys : (poseList pose1).map Pt.y =
    [0, 0.8, 0, 0, 0, 0, 0.3, 0, 0.5, 0, 0.4, 0, 0.42, 0, 0.4, 0, 0.41, 0, 0.3, 0,
     0.52] := rfl

theorem pose1_minX : minX pose1 = 0 := by
  rw [minX, pose1_xs, show (pose1 0).x = 0 from rfl]
  norm_num [min_def]

theorem pose1_maxX : maxX pose1 = 0.6 := by
  rw [maxX, pose1_xs, show (pose1 0).x = 0 from rfl]
  norm_num [max_def]

theorem pose1_minY : minY pose1 = 0 := by
  rw [minY, pose1_ys, show (pose1 0).y = 0 from rfl]
  norm_num [min_def]

theorem pose1_maxY : maxY pose1 = 0.8 := by
  rw [maxY, pose1_ys, show (pose1 0).y = 0 from rfl]
  norm_num [max_def]

theorem pose1_scale : scale pose1 = 1 := by
  rw [scale, pose1_minX, pose1_maxX, pose1_minY, pose1_maxY]
  apply sqrt_val
  · norm_num
  · norm_num [max_def]

theorem pose1_dTI : dist pose1 TIP_I WRIST = 0.5 :=
  dist_eval pose1 TIP_I WRIST 0 0.5 0 0 0.5 rfl rfl rfl rfl (by norm_num) (by norm_num)

theorem pose1_dPI : dist pose1 PIP_I WRIST = 0.3 :=
  dist_eval pose1 PIP_I WRIST 0 0.3 0 0 0.3 rfl rfl rfl rfl (by norm_num) (by norm_num)

theorem pose1_dTM : dist pose1 TIP_M WRIST = 0.42 :=
  dist_eval pose1 TIP_M WRIST 0 0.42 0 0 0.42 rfl rfl rfl rfl (by norm_num) (by norm_num)

theorem pose1_dPM : dist pose1 PIP_M WRIST = 0.4 :=
  dist_eval pose1 PIP_M WRIST 0 0.4 0 0 0.4 rfl rfl rfl rfl (by norm_num) (by norm_num)

theorem pose1_dTR : dist pose1 TIP_R WRIST = 0.41 :=
  dist_eval pose1 TIP_R WRIST 0 0.41 0 0 0.41 rfl rfl rfl rfl (by norm_num) (by norm_num)

theorem pose1_dPR : dist pose1 PIP_R WRIST = 0.4 :=
  dist_eval pose1 PIP_R WRIST 0 0.4 0 0 0.4 rfl rfl rfl rfl (by norm_num) (by norm_num)

theorem pose1_dTP : dist pose1 TIP_P WRIST = 0.52 :=
  dist_eval pose1 TIP_P WRIST 0 0.52 0 0 0.52 rfl rfl rfl rfl (by norm_num) (by norm_num)

theorem pose1_dPP : dist pose1 PIP_P WRIST = 0.3 :=
  dist_eval pose1 PIP_P WRIST 0 0.3 0 0 0.3 rfl rfl rfl rfl (by norm_num) (by norm_num)

theorem pose1_dThumb : dist pose1 TIP_T INDEX_MCP = 0.32 :=
  dist_eval pose1 TIP_T INDEX_MCP 0.28 0 0.6 0 0.32 rfl rfl rfl rfl (by norm_num)
    (by norm_num)

theorem pose1_thumb : thumbToIndexMCP pose1 = 0.32 := by
  rw [thumbToIndexMCP, norm, pose1_dThumb, pose1_scale]
  norm_num

theorem pose1_indexExt : fartherThan pose1 TIP_I PIP_I = true := by
  rw [fartherThan, extDiff_eval pose1 TIP_I PIP_I 0.5 0.3 1 pose1_dTI pose1_dPI pose1_scale,
    decide_eq_true_eq]
  norm_num

theorem pose1_middleExt : fartherThan pose1 TIP_M PIP_M = false := by
  rw [fartherThan, extDiff_eval pose1 TIP_M PIP_M 0.42 0.4 1 pose1_dTM pose1_dPM pose1_scale]
  simp only [decide_eq_false_iff_not]
  norm_num

theorem pose1_ringExt : fartherThan pose1 TIP_R PIP_R = false := by
  rw [fartherThan, extDiff_eval pose1 TIP_R PIP_R 0.41 0.4 1 pose1_dTR pose1_dPR pose1_scale]
  simp only [decide_eq_false_iff_not]
  norm_num

theorem pose1_pinkyExt : fartherThan pose1 TIP_P PIP_P = true := by
  rw [fartherThan, extDiff_eval pose1 TIP_P PIP_P 0.52 0.3 1 pose1_dTP pose1_dPP pose1_scale,
    decide_eq_true_eq]
  norm_num

theorem pose1_count : (computeMetrics pose1).extendedCount = 2 := by
  rw [computeMetrics_extendedCount, pose1_indexExt, pose1_middleExt, pose1_ringExt,
    pose1_pinkyExt]
  rfl

theorem pose1_thumbOut : (computeMetrics pose1).thumbOut = false := by
  rw [computeMetrics_thumbOut, pose1_thumb]
  simp only [decide_eq_false_iff_not]
  norm_num

/-- On pose1 no rule of the decision list fires: the label is unknown. -/
theorem pose1_label : (classifySign pose1).1 = "unknown" := by
  have hm : (computeMetrics pose1).middleExt = false := by
    rw [computeMetrics_middleExt, pose1_middleExt]
  have hto := pose1_thumbOut
  have hcnt := pose1_count
  have hns : ¬scissorsCond (computeMetrics pose1) (bent pose1 TIP_R PIP_R)
      (bent pose1 TIP_P PIP_P) := by
    rintro ⟨-, h, -⟩
    rw [hm] at h
    exact Bool.false_ne_true h
  have hnsp : ¬spockCond (computeMetrics pose1) := by
    rintro ⟨h, -⟩
    rw [hcnt] at h
    norm_num at h
  have hnp : ¬paperCond (computeMetrics pose1) := by
    rintro ⟨h, -⟩
    rw [hcnt] at h
    norm_num at h
  have hnr : ¬rockCond (computeMetrics pose1) := by
    rintro ⟨h, -⟩
    rw [hcnt] at h
    norm_num at h
  have hnl : ¬lizardCond (computeMetrics pose1) := by
    rintro ⟨h, -⟩
    rw [hto] at h
    exact Bool.false_ne_true h
  have hnst : ¬spockTieCond (computeMetrics pose1) := by
    rintro ⟨h, -⟩
    rw [hcnt] at h
    norm_num at h
  have hnlt : ¬lizardTieCond (computeMetrics pose1) := by
    rintro ⟨-, h⟩
    rw [hto] at h
    exact Bool.false_ne_true h
  unfold classifySign classifyFromMetrics
  rw [if_neg hns, if_neg hnsp, if_neg hnp, if_neg hnr, if_neg hnl, if_neg hnst, if_neg hnlt]

/-! ## Claim theorems: the lizard rule's thumb threshold -/

/-- C2 counterexample: pose1 has middle and ring not extended, index
extended, a normalised thumb distance of 0.32 — strictly above the soft
outward threshold 0.31 — and none of the four earlier rules matches, yet
classifySign returns unknown, not lizard: the code gates the lizard rule by
the hard outward threshold 0.34, not the soft 0.31 of the claim. -/
theorem C2_lizard_soft_threshold_refuted :
    (computeMetrics pose1).middleExt = false ∧
      (computeMetrics pose1).ringExt = false ∧
      (computeMetrics pose1).indexExt = true ∧
      (computeMetrics pose1).thumbToIndexMCP > 0.31 ∧
      ¬scissorsCond (computeMetrics pose1) (bent pose1 TIP_R PIP_R)
        (bent pose1 TIP_P PIP_P) ∧
      ¬spockCond (computeMetrics pose1) ∧
      ¬paperCond (computeMetrics pose1) ∧
      ¬rockCond (computeMetrics pose1) ∧
      (classifySign pose1).1 = "unknown" ∧
      (classifySign pose1).1 ≠ "lizard" := by
  have hm : (computeMetrics pose1).middleExt = false := by
    rw [computeMetrics_middleExt, pose1_middleExt]
  have hr : (computeMetrics pose1).ringExt = false := by
    rw [computeMetrics_ringExt, pose1_ringExt]
  have hi : (computeMetrics pose1).indexExt = true := by
    rw [computeMetrics_indexExt, pose1_indexExt]
  have hto := pose1_thumbOut
  have hcnt := pose1_count
  have hns : ¬scissorsCond (computeMetrics pose1) (bent pose1 TIP_R PIP_R)
      (bent pose1 TIP_P PIP_P) := by
    rintro ⟨-, h, -⟩
    rw [hm] at h
    exact Bool.false_ne_true h
  have hnsp : ¬spockCond (computeMetrics pose1) := by
    rintro ⟨h, -⟩
    rw [hcnt] at h
    norm_num at h
  have hnp : ¬paperCond (computeMetrics pose1) := by
    rintro ⟨h, -⟩
    rw [hcnt] at h
    norm_num at h
  have hnr : ¬rockCond (computeMetrics pose1) := by
    rintro ⟨h, -⟩
    rw [hcnt] at h
    norm_num at h
  refine ⟨hm, hr, hi, ?_, hns, hnsp, hnp, hnr, pose1_label, ?_⟩
  · rw [computeMetrics_thumb, pose1_thumb]
    norm_num
  · rw [pose1_label]
    decide

/-- C2 amended: with the hard outward threshold 0.34 (the code's thumbOut
test) in place of the claimed soft 0.31, the lizard characterisation holds:
middle and ring not extended, index or pinky extended, thumb distance above
0.34, and no earlier rule matching imply the label lizard. -/
theorem C2_lizard_rule_amended (L : Pose)
    (hm : (computeMetrics L).middleExt = false)
    (hr : (computeMetrics L).ringExt = false)
    (hip : (computeMetrics L).indexExt = true ∨ (computeMetrics L).pinkyExt = true)
    (ht : thumbToIndexMCP L > 0.34)
    (h1 : ¬scissorsCond (computeMetrics L) (bent L TIP_R PIP_R) (bent L TIP_P PIP_P))
    (h2 : ¬spockCond (computeMetrics L))
    (h3 : ¬paperCond (computeMetrics L))
    (h4 : ¬rockCond (computeMetrics L)) :
    (classifySign L).1 = "lizard" := by
  have hto : (computeMetrics L).thumbOut = true := by
    rw [computeMetrics_thumbOut, decide_eq_true_eq]
    exact ht
  unfold classifySign classifyFromMetrics
  rw [if_neg h1, if_neg h2, if_neg h3, if_neg h4, if_pos ⟨hto, hm, hr, hip⟩]

/-- pose3: pose1 with the thumb tip moved to x = 0.24, so the normalised
thumb distance is 0.36, above the hard outward threshold. -/
noncomputable def pose3 : Pose := fun i =>
  if i = 1 then ⟨0, 0.8⟩
  else if i = 4 then ⟨0.24, 0⟩
  else if i = 5 then ⟨0.6, 0⟩
  else if i = 6 then ⟨0, 0.3⟩
  else if i = 8 then ⟨0, 0.5⟩
  else if i = 10 then ⟨0, 0.4⟩
  else if i = 12 then ⟨0, 0.42⟩
  else if i = 14 then ⟨0, 0.4⟩
  else if i = 16 then ⟨0, 0.41⟩
  else if i = 18 then ⟨0, 0.3⟩
  else if i = 20 then ⟨0, 0.52⟩
  else ⟨0, 0⟩

theorem pose3_xs : (poseList pose3).map Pt.x =
    [0, 0, 0, 0, 0.24, 0.6, 0, 0, 0, 0, 0, 0, 0, 0, 0, 0, 0, 0, 0, 0, 0] := rfl

theorem pose3_ys : (poseList pose3).map Pt.y =
    [0, 0.8, 0, 0, 0, 0, 0.3, 0, 0.5, 0, 0.4, 0, 0.42, 0, 0.4, 0, 0.41, 0, 0.3, 0,
     0.52] := rfl

theorem pose3_minX : minX pose3 = 0 := by
  rw [minX, pose3_xs, show (pose3 0).x = 0 from rfl]
  norm_num [min_def]

theorem pose3_maxX : maxX pose3 = 0.6 := by
  rw [maxX, pose3_xs, show (pose3 0).x = 0 from rfl]
  norm_num [max_def]

theorem pose3_minY : minY pose3 = 0 := by
  rw [minY, pose3_ys, show (pose3 0).y = 0 from rfl]
  norm_num [min_def]

theorem pose3_maxY : maxY pose3 = 0.8 := by
  rw [maxY, pose3_ys, show (pose3 0).y = 0 from rfl]
  norm_num [max_def]

theorem pose3_scale : scale pose3 = 1 := by
  rw [scale, pose3_minX, pose3_maxX, pose3_minY, pose3_maxY]
  apply sqrt_val
  · norm_num
  · norm_num [max_def]

theorem pose3_dTI : dist pose3 TIP_I WRIST = 0.5 :=
  dist_eval pose3 TIP_I WRIST 0 0.5 0 0 0.5 rfl rfl rfl rfl (by norm_num) (by norm_num)

theorem pose3_dPI : dist pose3 PIP_I WRIST = 0.3 :=
  dist_eval pose3 PIP_I WRIST 0 0.3 0 0 0.3 rfl rfl rfl rfl (by norm_num) (by norm_num)

theorem pose3_dTM : dist pose3 TIP_M WRIST = 0.42 :=
  dist_eval pose3 TIP_M WRIST 0 0.42 0 0 0.42 rfl rfl rfl rfl (by norm_num) (by norm_num)

theorem pose3_dPM : dist pose3 PIP_M WRIST = 0.4 :=
  dist_eval pose3 PIP_M WRIST 0 0.4 0 0 0.4 rfl rfl rfl rfl (by norm_num) (by norm_num)

theorem pose3_dTR : dist pose3 TIP_R WRIST = 0.41 :=
  dist_eval pose3 TIP_R WRIST 0 0.41 0 0 0.41 rfl rfl rfl rfl (by norm_num) (by norm_num)

theorem pose3_dPR : dist pose3 PIP_R WRIST = 0.4 :=
  dist_eval pose3 PIP_R WRIST 0 0.4 0 0 0.4 rfl rfl rfl rfl (by norm_num) (by norm_num)

theorem pose3_dTP : dist pose3 TIP_P WRIST = 0.52 :=
  dist_eval pose3 TIP_P WRIST 0 0.52 0 0 0.52 rfl rfl rfl rfl (by norm_num) (by norm_num)

theorem pose3_dPP : dist pose3 PIP_P WRIST = 0.3 :=
  dist_eval pose3 PIP_P WRIST 0 0.3 0 0 0.3 rfl rfl rfl rfl (by norm_num) (by norm_num)

theorem pose3_dThumb : dist pose3 TIP_T INDEX_MCP = 0.36 :=
  dist_eval pose3 TIP_T INDEX_MCP 0.24 0 0.6 0 0.36 rfl rfl rfl rfl (by norm_num)
    (by norm_num)

theorem pose3_thumb : thumbToIndexMCP pose3 = 0.36 := by
  rw [thumbToIndexMCP, norm, pose3_dThumb, pose3_scale]
  norm_num

theorem pose3_indexExt : fartherThan pose3 TIP_I PIP_I = true := by
  rw [fartherThan, extDiff_eval pose3 TIP_I PIP_I 0.5 0.3 1 pose3_dTI pose3_dPI pose3_scale,
    decide_eq_true_eq]
  norm_num

theorem pose3_middleExt : fartherThan pose3 TIP_M PIP_M = false := by
  rw [fartherThan, extDiff_eval pose3 TIP_M PIP_M 0.42 0.4 1 pose3_dTM pose3_dPM pose3_scale]
  simp only [decide_eq_false_iff_not]
  norm_num

theorem pose3_ringExt : fartherThan pose3 TIP_R PIP_R = false := by
  rw [fartherThan, extDiff_eval pose3 TIP_R PIP_R 0.41 0.4 1 pose3_dTR pose3_dPR pose3_scale]
  simp only [decide_eq_false_iff_not]
  norm_num

theorem pose3_pinkyExt : fartherThan pose3 TIP_P PIP_P = true := by
  rw [fartherThan, extDiff_eval pose3 TIP_P PIP_P 0.52 0.3 1 pose3_dTP pose3_dPP pose3_scale,
    decide_eq_true_eq]
  norm_num

theorem pose3_count : (computeMetrics pose3).extendedCount = 2 := by
  rw [computeMetrics_extendedCount, pose3_indexExt, pose3_middleExt, pose3_ringExt,
    pose3_pinkyExt]
  rfl

/-- C2 amended witness: pose3 satisfies every hypothesis of the amended
lizard rule and is classified as lizard. -/
theorem C2_lizard_rule_amended_witness :
    ((computeMetrics pose3).middleExt = false ∧
      (computeMetrics pose3).ringExt = false ∧
      ((computeMetrics pose3).indexExt = true ∨ (computeMetrics pose3).pinkyExt = true) ∧
      thumbToIndexMCP pose3 > 0.34) ∧
      (classifySign pose3).1 = "lizard" := by
  have hm : (computeMetrics pose3).middleExt = false := by
    rw [computeMetrics_middleExt, pose3_middleExt]
  have hr : (computeMetrics pose3).ringExt = false := by
    rw [computeMetrics_ringExt, pose3_ringExt]
  have hi : (computeMetrics pose3).indexExt = true := by
    rw [computeMetrics_indexExt, pose3_indexExt]
  have ht : thumbToIndexMCP pose3 > 0.34 := by
    rw [pose3_thumb]
    norm_num
  have hcnt := pose3_count
  have hns : ¬scissorsCond (computeMetrics pose3) (bent pose3 TIP_R PIP_R)
      (bent pose3 TIP_P PIP_P) := by
    rintro ⟨-, h, -⟩
    rw [hm] at h
    exact Bool.false_ne_true h
  have hnsp : ¬spockCond (computeMetrics pose3) := by
    rintro ⟨h, -⟩
    rw [hcnt] at h
    norm_num at h
  have hnp : ¬paperCond (computeMetrics pose3) := by
    rintro ⟨h, -⟩
    rw [hcnt] at h
    norm_num at h
  have hnr : ¬rockCond (computeMetrics pose3) := by
    rintro ⟨h, -⟩
    rw [hcnt] at h
    norm_num at h
  exact ⟨⟨hm, hr, Or.inl hi, ht⟩,
    C2_lizard_rule_amended pose3 hm hr (Or.inl hi) ht hns hnsp hnp hnr⟩

/-- Direction-length evaluation at a nonzero vector. -/
theorem dirLen_eval (L : Pose) (tip pip : Fin 21) (xt yt xp yp d : ℝ)
    (htx : (L tip).x = xt) (hty : (L tip).y = yt)
    (hpx : (L pip).x = xp) (hpy : (L pip).y = yp)
    (hd : 0 < d) (h : d ^ 2 = (xt - xp) ^ 2 + (yt - yp) ^ 2) :
    dirLen L tip pip = d := by
  rw [dirLen, htx, hty, hpx, hpy, sqrt_val hd.le h, if_neg (ne_of_gt hd)]

/-- pose2: wrist at the origin; index and middle extended along the same
3-4-5 direction (unit vector (0.6, 0.8)), ring and pinky fully curled, thumb
0.36 away from the index knuckle.  Satisfies the scissors rule and the
lizard tie-break at once.  The bounding box is 0.6 by 0.8, so the scale is
exactly 1. -/
noncomputable def pose2 : Pose := fun i =>
  if i = 1 then ⟨0.6, 0.8⟩
  else if i = 4 then ⟨0.48, 0.16⟩
  else if i = 5 then ⟨0.12, 0.16⟩
  else if i = 6 then ⟨0.18, 0.24⟩
  else if i = 8 then ⟨0.33, 0.44⟩
  else if i = 10 then ⟨0.24, 0.32⟩
  else if i = 12 then ⟨0.36, 0.48⟩
  else if i = 14 then ⟨0.06, 0.08⟩
  else if i = 16 then ⟨0.06, 0.08⟩
  else if i = 18 then ⟨0, 0.1⟩
  else if i = 20 then ⟨0, 0.1⟩
  else ⟨0, 0⟩

theorem pose2_xs : (poseList pose2).map Pt.x =
    [0, 0.6, 0, 0, 0.48, 0.12, 0.18, 0, 0.33, 0, 0.24, 0, 0.36, 0, 0.06, 0, 0.06, 0,
     0, 0, 0] := rfl

theorem pose2_ys : (poseList pose2).map Pt.y =
    [0, 0.8, 0, 0, 0.16, 0.16, 0.24, 0, 0.44, 0, 0.32, 0, 0.48, 0, 0.08, 0, 0.08, 0,
     0.1, 0, 0.1] := rfl

theorem pose2_minX : minX pose2 = 0 := by
  rw [minX, pose2_xs, show (pose2 0).x = 0 from rfl]
  norm_num [min_def]

theorem pose2_maxX : maxX pose2 = 0.6 := by
  rw [maxX, pose2_xs, show (pose2 0).x = 0 from rfl]
  norm_num [max_def]

theorem pose2_minY : minY pose2 = 0 := by
  rw [minY, pose2_ys, show (pose2 0).y = 0 from rfl]
  norm_num [min_def]

theorem pose2_maxY : maxY pose2 = 0.8 := by
  rw [maxY, pose2_ys, show (pose2 0).y = 0 from rfl]
  norm_num [max_def]

theorem pose2_scale : scale pose2 = 1 := by
  rw [scale, pose2_minX, pose2_maxX, pose2_minY, pose2_maxY]
  apply sqrt_val
  · norm_num
  · norm_num [max_def]

theorem pose2_dTI : dist pose2 TIP_I WRIST = 0.55 :=
  dist_eval pose2 TIP_I WRIST 0.33 0.44 0 0 0.55 rfl rfl rfl rfl (by norm_num)
    (by norm_num)

theorem pose2_dPI : dist pose2 PIP_I WRIST = 0.3 :=
  dist_eval pose2 PIP_I WRIST 0.18 0.24 0 0 0.3 rfl rfl rfl rfl (by norm_num)
    (by norm_num)

theorem pose2_dTM : dist pose2 TIP_M WRIST = 0.6 :=
  dist_eval pose2 TIP_M WRIST 0.36 0.48 0 0 0.6 rfl rfl rfl rfl (by norm_num)
    (by norm_num)

theorem pose2_dPM : dist pose2 PIP_M WRIST = 0.4 :=
  dist_eval pose2 PIP_M WRIST 0.24 0.32 0 0 0.4 rfl rfl rfl rfl (by norm_num)
    (by norm_num)

theorem pose2_dTR : dist pose2 TIP_R WRIST = 0.1 :=
  dist_eval pose2 TIP_R WRIST 0.06 0.08 0 0 0.1 rfl rfl rfl rfl (by norm_num)
    (by norm_num)

theorem pose2_dPR : dist pose2 PIP_R WRIST = 0.1 :=
  dist_eval pose2 PIP_R WRIST 0.06 0.08 0 0 0.1 rfl rfl rfl rfl (by norm_num)
    (by norm_num)

theorem pose2_dTP : dist pose2 TIP_P WRIST = 0.1 :=
  dist_eval pose2 TIP_P WRIST 0 0.1 0 0 0.1 rfl rfl rfl rfl (by norm_num) (by norm_num)

theorem pose2_dPP : dist pose2 PIP_P WRIST = 0.1 :=
  dist_eval pose2 PIP_P WRIST 0 0.1 0 0 0.1 rfl rfl rfl rfl (by norm_num) (by norm_num)

theorem pose2_dThumb : dist pose2 TIP_T INDEX_MCP = 0.36 :=
  dist_eval pose2 TIP_T INDEX_MCP 0.48 0.16 0.12 0.16 0.36 rfl rfl rfl rfl (by norm_num)
    (by norm_num)

theorem pose2_dGapIM : dist pose2 TIP_I TIP_M = 0.05 :=
  dist_eval pose2 TIP_I TIP_M 0.33 0.44 0.36 0.48 0.05 rfl rfl rfl rfl (by norm_num)
    (by norm_num)

theorem pose2_thumb : thumbToIndexMCP pose2 = 0.36 := by
  rw [thumbToIndexMCP, norm, pose2_dThumb, pose2_scale]
  norm_num

theorem pose2_gapIM : gapIM pose2 = 0.05 := by
  rw [gapIM, norm, pose2_dGapIM, pose2_scale]
  norm_num

theorem pose2_indexExt : fartherThan pose2 TIP_I PIP_I = true := by
  rw [fartherThan, extDiff_eval pose2 TIP_I PIP_I 0.55 0.3 1 pose2_dTI pose2_dPI pose2_scale,
    decide_eq_true_eq]
  norm_num

theorem pose2_middleExt : fartherThan pose2 TIP_M PIP_M = true := by
  rw [fartherThan, extDiff_eval pose2 TIP_M PIP_M 0.6 0.4 1 pose2_dTM pose2_dPM pose2_scale,
    decide_eq_true_eq]
  norm_num

theorem pose2_ringExt : fartherThan pose2 TIP_R PIP_R = false := by
  rw [fartherThan, extDiff_eval pose2 TIP_R PIP_R 0.1 0.1 1 pose2_dTR pose2_dPR pose2_scale]
  simp only [decide_eq_false_iff_not]
  norm_num

theorem pose2_pinkyExt : fartherThan pose2 TIP_P PIP_P = false := by
  rw [fartherThan, extDiff_eval pose2 TIP_P PIP_P 0.1 0.1 1 pose2_dTP pose2_dPP pose2_scale]
  simp only [decide_eq_false_iff_not]
  norm_num

theorem pose2_bentR : bent pose2 TIP_R PIP_R = true := by
  rw [bent, extDiff_eval pose2 TIP_R PIP_R 0.1 0.1 1 pose2_dTR pose2_dPR pose2_scale,
    decide_eq_true_eq]
  norm_num

theorem pose2_bentP : bent pose2 TIP_P PIP_P = true := by
  rw [bent, extDiff_eval pose2 TIP_P PIP_P 0.1 0.1 1 pose2_dTP pose2_dPP pose2_scale,
    decide_eq_true_eq]
  norm_num

theorem pose2_cosIM : cosIMOf pose2 = 1 := by
  rw [cosIMOf, dirUnit, dirUnit,
    dirLen_eval pose2 TIP_I PIP_I 0.33 0.44 0.18 0.24 0.25 rfl rfl rfl rfl (by norm_num)
      (by norm_num),
    dirLen_eval pose2 TIP_M PIP_M 0.36 0.48 0.24 0.32 0.2 rfl rfl rfl rfl (by norm_num)
      (by norm_num),
    show (pose2 TIP_I).x = 0.33 from rfl, show (pose2 TIP_I).y = 0.44 from rfl,
    show (pose2 PIP_I).x = 0.18 from rfl, show (pose2 PIP_I).y = 0.24 from rfl,
    show (pose2 TIP_M).x = 0.36 from rfl, show (pose2 TIP_M).y = 0.48 from rfl,
    show (pose2 PIP_M).x = 0.24 from rfl, show (pose2 PIP_M).y = 0.32 from rfl, clamp]
  norm_num [min_def, max_def]

theorem pose2_count : (computeMetrics pose2).extendedCount = 2 := by
  rw [computeMetrics_extendedCount, pose2_indexExt, pose2_middleExt, pose2_ringExt,
    pose2_pinkyExt]
  rfl

/-- C5 witness: pose2 satisfies the scissors rule and the lizard tie-break
simultaneously, and is classified as scissors. -/
theorem C5_rule_order_scissors_first_witness :
    (scissorsCond (computeMetrics pose2) (bent pose2 TIP_R PIP_R) (bent pose2 TIP_P PIP_P) ∧
      lizardTieCond (computeMetrics pose2)) ∧
      (classifySign pose2).1 = "scissors" := by
  have hs : scissorsCond (computeMetrics pose2) (bent pose2 TIP_R PIP_R)
      (bent pose2 TIP_P PIP_P) := by
    refine ⟨?_, ?_, ?_, ?_, pose2_bentR, pose2_bentP, ?_, ?_⟩
    · rw [computeMetrics_indexExt, pose2_indexExt]
    · rw [computeMetrics_middleExt, pose2_middleExt]
    · rw [computeMetrics_ringExt, pose2_ringExt]
    · rw [computeMetrics_pinkyExt, pose2_pinkyExt]
    · rw [computeMetrics_gapIM, pose2_gapIM]
      norm_num [T_scissorsIMMaxGap]
    · rw [computeMetrics_cosIM, pose2_cosIM]
      norm_num [T_scissorsCosMin]
  have hl : lizardTieCond (computeMetrics pose2) := by
    refine ⟨?_, ?_⟩
    · rw [pose2_count]
    · rw [computeMetrics_thumbOut, pose2_thumb, decide_eq_true_eq]
      norm_num
  exact ⟨⟨hs, hl⟩, C5_rule_order_scissors_first pose2 hs hl⟩

/-! ## Claim theorems: thumb band invariant -/

/-- C9: the thumbOut and thumbAlong flags of a produced metrics bundle are
never both true, and on the indeterminate band 0.28 ≤ t ≤ 0.34 both are
false. -/
theorem C9_thumb_flags_exclusive (L : Pose) :
    ¬((computeMetrics L).thumbOut = true ∧ (computeMetrics L).thumbAlong = true) ∧
      (0.28 ≤ thumbToIndexMCP L ∧ thumbToIndexMCP L ≤ 0.34 →
        (computeMetrics L).thumbOut = false ∧ (computeMetrics L).thumbAlong = false) := by
  constructor
  · rintro ⟨ho, ha⟩
    rw [computeMetrics_thumbOut, decide_eq_true_eq] at ho
    rw [computeMetrics_thumbAlong, decide_eq_true_eq] at ha
    linarith
  · rintro ⟨h1, h2⟩
    constructor
    · rw [computeMetrics_thumbOut]
      simp only [decide_eq_false_iff_not]
      intro h
      linarith
    · rw [computeMetrics_thumbAlong]
      simp only [decide_eq_false_iff_not]
      intro h
      linarith

/-- C9 witness: pose1, whose thumb distance 0.32 lies in the band. -/
theorem C9_thumb_flags_exclusive_witness :
    (0.28 ≤ thumbToIndexMCP pose1 ∧ thumbToIndexMCP pose1 ≤ 0.34) ∧
      (computeMetrics pose1).thumbOut = false ∧
      (computeMetrics pose1).thumbAlong = false := by
  have hband : 0.28 ≤ thumbToIndexMCP pose1 ∧ thumbToIndexMCP pose1 ≤ 0.34 := by
    rw [pose1_thumb]
    norm_num
  exact ⟨hband, (C9_thumb_flags_exclusive pose1).2 hband⟩

/-! ## Similarity transforms of a pose (claim C3) -/

/-- Uniform scaling by k together with a translation (tx, ty), applied to
every landmark. -/
noncomputable def scalePose (k tx ty : ℝ) (L : Pose) : Pose := fun i =>
  ⟨k * (L i).x + tx, k * (L i).y + ty⟩

/-- An affine map with nonnegative slope distributes over min. -/
theorem min_affine (k c a b : ℝ) (hk : 0 ≤ k) :
    min (k * a + c) (k * b + c) = k * min a b + c := by
  rcases le_total a b with h | h
  · rw [min_eq_left h, min_eq_left (by nlinarith)]
  · rw [min_eq_right h, min_eq_right (by nlinarith)]

/-- An affine map with nonnegative slope distributes over max. -/
theorem max_affine (k c a b : ℝ) (hk : 0 ≤ k) :
    max (k * a + c) (k * b + c) = k * max a b + c := by
  rcases le_total a b with h | h
  · rw [max_eq_right h, max_eq_right (by nlinarith)]
  · rw [max_eq_left h, max_eq_left (by nlinarith)]

/-- An affine map with nonnegative slope commutes with a running-min fold. -/
theorem foldl_min_affine (k c : ℝ) (hk : 0 ≤ k) :
    ∀ (xs : List ℝ) (s : ℝ),
      (xs.map fun v => k * v + c).foldl min (k * s + c) = k * xs.foldl min s + c := by
  intro xs
  induction xs with
  | nil => intro s; simp
  | cons v xs ih =>
    intro s
    simp only [List.map_cons, List.foldl_cons]
    rw [min_affine k c s v hk, ih (min s v)]

/-- An affine map with nonnegative slope commutes with a running-max fold. -/
theorem foldl_max_affine (k c : ℝ) (hk : 0 ≤ k) :
    ∀ (xs : List ℝ) (s : ℝ),
      (xs.map fun v => k * v + c).foldl max (k * s + c) = k * xs.foldl max s + c := by
  intro xs
  induction xs with
  | nil => intro s; simp
  | cons v xs ih =>
    intro s
    simp only [List.map_cons, List.foldl_cons]
    rw [max_affine k c s v hk, ih (max s v)]

theorem minX_scalePose (k tx ty : ℝ) (L : Pose) (hk : 0 ≤ k) :
    minX (scalePose k tx ty L) = k * minX L + tx := by
  rw [minX, minX]
  have hl : (poseList (scalePose k tx ty L)).map Pt.x =
      ((poseList L).map Pt.x).map fun v => k * v + tx := by
    rw [List.map_map]
    rfl
  rw [hl, show (scalePose k tx ty L 0).x = k * (L 0).x + tx from rfl]
  exact foldl_min_affine k tx hk ((poseList L).map Pt.x) (L 0).x

theorem maxX_scalePose (k tx ty : ℝ) (L : Pose) (hk : 0 ≤ k) :
    maxX (scalePose k tx ty L) = k * maxX L + tx := by
  rw [maxX, maxX]
  have hl : (poseList (scalePose k tx ty L)).map Pt.x =
      ((poseList L).map Pt.x).map fun v => k * v + tx := by
    rw [List.map_map]
    rfl
  rw [hl, show (scalePose k tx ty L 0).x = k * (L 0).x + tx from rfl]
  exact foldl_max_affine k tx hk ((poseList L).map Pt.x) (L 0).x

theorem minY_scalePose (k tx ty : ℝ) (L : Pose) (hk : 0 ≤ k) :
    minY (scalePose k tx ty L) = k * minY L + ty := by
  rw [minY, minY]
  have hl : (poseList (scalePose k tx ty L)).map Pt.y =
      ((poseList L).map Pt.y).map fun v => k * v + ty := by
    rw [List.map_map]
    rfl
  rw [hl, show (scalePose k tx ty L 0).y = k * (L 0).y + ty from rfl]
  exact foldl_min_affine k ty hk ((poseList L).map Pt.y) (L 0).y

theorem maxY_scalePose (k tx ty : ℝ) (L : Pose) (hk : 0 ≤ k) :
    maxY (scalePose k tx ty L) = k * maxY L + ty := by
  rw [maxY, maxY]
  have hl : (poseList (scalePose k tx ty L)).map Pt.y =
      ((poseList L).map Pt.y).map fun v => k * v + ty := by
    rw [List.map_map]
    rfl
  rw [hl, show (scalePose k tx ty L 0).y = k * (L 0).y + ty from rfl]
  exact foldl_max_affine k ty hk ((poseList L).map Pt.y) (L 0).y

/-- Distances scale with the pose. -/
theorem dist_scalePose (k tx ty : ℝ) (L : Pose) (a b : Fin 21) (hk : 0 ≤ k) :
    dist (scalePose k tx ty L) a b = k * dist L a b := by
  rw [dist, dist,
    show (scalePose k tx ty L a).x = k * (L a).x + tx from rfl,
    show (scalePose k tx ty L a).y = k * (L a).y + ty from rfl,
    show (scalePose k tx ty L b).x = k * (L b).x + tx from rfl,
    show (scalePose k tx ty L b).y = k * (L b).y + ty from rfl]
  have e : (k * (L a).x + tx - (k * (L b).x + tx)) ^ 2 +
      (k * (L a).y + ty - (k * (L b).y + ty)) ^ 2 =
      k ^ 2 * (((L a).x - (L b).x) ^ 2 + ((L a).y - (L b).y) ^ 2) := by ring
  rw [e, Real.sqrt_mul (sq_nonneg k), Real.sqrt_sq hk]

/-- The bounding-box scale transforms by the factor k as long as neither
the original nor the transformed extents touch the 1e-6 floor. -/
theorem scale_scalePose (k tx ty : ℝ) (L : Pose) (hk : 0 < k)
    (hX : 1e-6 ≤ maxX L - minX L) (hY : 1e-6 ≤ maxY L - minY L)
    (hX2 : 1e-6 ≤ k * (maxX L - minX L)) (hY2 : 1e-6 ≤ k * (maxY L - minY L)) :
    scale (scalePose k tx ty L) = k * scale L := by
  rw [scale, scale, minX_scalePose k tx ty L hk.le, maxX_scalePose k tx ty L hk.le,
    minY_scalePose k tx ty L hk.le, maxY_scalePose k tx ty L hk.le]
  have eX : k * maxX L + tx - (k * minX L + tx) = k * (maxX L - minX L) := by ring
  have eY : k * maxY L + ty - (k * minY L + ty) = k * (maxY L - minY L) := by ring
  rw [eX, eY, max_eq_left hX2, max_eq_left hY2, max_eq_left hX, max_eq_left hY]
  have e : (k * (maxX L - minX L)) ^ 2 + (k * (maxY L - minY L)) ^ 2 =
      k ^ 2 * ((maxX L - minX L) ^ 2 + (maxY L - minY L) ^ 2) := by ring
  rw [e, Real.sqrt_mul (sq_nonneg k), Real.sqrt_sq hk.le]

/-- Normalising a scaled length by the scaled hand scale gives the original
normalised value. -/
theorem norm_scalePose (k tx ty : ℝ) (L : Pose) (v : ℝ) (hk : 0 < k)
    (hs : scale (scalePose k tx ty L) = k * scale L) :
    norm (scalePose k tx ty L) (k * v) = norm L v := by
  rw [norm, norm, hs]
  exact mul_div_mul_left v (scale L) (ne_of_gt hk)

theorem extDiff_scalePose (k tx ty : ℝ) (L : Pose) (tip pip : Fin 21) (hk : 0 < k)
    (hs : scale (scalePose k tx ty L) = k * scale L) :
    extDiff (scalePose k tx ty L) tip pip = extDiff L tip pip := by
  rw [extDiff, extDiff, dist_scalePose k tx ty L tip WRIST hk.le,
    dist_scalePose k tx ty L pip WRIST hk.le, ← mul_sub]
  exact norm_scalePose k tx ty L (dist L tip WRIST - dist L pip WRIST) hk hs

theorem fartherThan_scalePose (k tx ty : ℝ) (L : Pose) (tip pip : Fin 21) (hk : 0 < k)
    (hs : scale (scalePose k tx ty L) = k * scale L) :
    fartherThan (scalePose k tx ty L) tip pip = fartherThan L tip pip := by
  rw [fartherThan, fartherThan, extDiff_scalePose k tx ty L tip pip hk hs]

theorem bent_scalePose (k tx ty : ℝ) (L : Pose) (tip pip : Fin 21) (hk : 0 < k)
    (hs : scale (scalePose k tx ty L) = k * scale L) :
    bent (scalePose k tx ty L) tip pip = bent L tip pip := by
  rw [bent, bent, extDiff_scalePose k tx ty L tip pip hk hs]

theorem normdist_scalePose (k tx ty : ℝ) (L : Pose) (a b : Fin 21) (hk : 0 < k)
    (hs : scale (scalePose k tx ty L) = k * scale L) :
    norm (scalePose k tx ty L) (dist (scalePose k tx ty L) a b) = norm L (dist L a b) := by
  rw [dist_scalePose k tx ty L a b hk.le]
  exact norm_scalePose k tx ty L (dist L a b) hk hs

/-- The direction unit vectors are invariant under translation and positive
scaling; the degenerate zero-length case maps to the zero vector on both
sides. -/
theorem dirUnit_scalePose (k tx ty : ℝ) (L : Pose) (tip pip : Fin 21) (hk : 0 < k) :
    dirUnit (scalePose k tx ty L) tip pip = dirUnit L tip pip := by
  have ex : (scalePose k tx ty L tip).x - (scalePose k tx ty L pip).x =
      k * ((L tip).x - (L pip).x) := by
    rw [show (scalePose k tx ty L tip).x = k * (L tip).x + tx from rfl,
      show (scalePose k tx ty L pip).x = k * (L pip).x + tx from rfl]
    ring
  have ey : (scalePose k tx ty L tip).y - (scalePose k tx ty L pip).y =
      k * ((L tip).y - (L pip).y) := by
    rw [show (scalePose k tx ty L tip).y = k * (L tip).y + ty from rfl,
      show (scalePose k tx ty L pip).y = k * (L pip).y + ty from rfl]
    ring
  have esq : (k * ((L tip).x - (L pip).x)) ^ 2 + (k * ((L tip).y - (L pip).y)) ^ 2 =
      k ^ 2 * (((L tip).x - (L pip).x) ^ 2 + ((L tip).y - (L pip).y) ^ 2) := by ring
  by_cases h0 :
    Real.sqrt (((L tip).x - (L pip).x) ^ 2 + ((L tip).y - (L pip).y) ^ 2) = 0
  · have hsum : ((L tip).x - (L pip).x) ^ 2 + ((L tip).y - (L pip).y) ^ 2 ≤ 0 :=
      Real.sqrt_eq_zero'.mp h0
    have hx : (L tip).x - (L pip).x = 0 := by
      nlinarith [sq_nonneg ((L tip).x - (L pip).x), sq_nonneg ((L tip).y - (L pip).y)]
    have hy : (L tip).y - (L pip).y = 0 := by
      nlinarith [sq_nonneg ((L tip).x - (L pip).x), sq_nonneg ((L tip).y - (L pip).y)]
    rw [dirUnit, dirUnit, ex, ey, hx, hy]
    norm_num
  · have hpos : 0 <
        Real.sqrt (((L tip).x - (L pip).x) ^ 2 + ((L tip).y - (L pip).y) ^ 2) :=
      lt_of_le_of_ne (Real.sqrt_nonneg _) (Ne.symm h0)
    have hlen : dirLen L tip pip =
        Real.sqrt (((L tip).x - (L pip).x) ^ 2 + ((L tip).y - (L pip).y) ^ 2) := by
      rw [dirLen, if_neg h0]
    have hlen2 : dirLen (scalePose k tx ty L) tip pip = k * dirLen L tip pip := by
      rw [dirLen, ex, ey, esq, Real.sqrt_mul (sq_nonneg k), Real.sqrt_sq hk.le,
        if_neg (by positivity), hlen]
    rw [dirUnit, dirUnit, ex, ey, hlen2, hlen]
    rw [mul_div_mul_left _ _ (ne_of_gt hk), mul_div_mul_left _ _ (ne_of_gt hk)]

theorem cosIMOf_scalePose (k tx ty : ℝ) (L : Pose) (hk : 0 < k) :
    cosIMOf (scalePose k tx ty L) = cosIMOf L := by
  rw [cosIMOf, cosIMOf, dirUnit_scalePose k tx ty L TIP_I PIP_I hk,
    dirUnit_scalePose k tx ty L TIP_M PIP_M hk]

/-! ## Claim theorems: similarity invariance of the metrics -/

/-- C3 amended: the metrics bundle is invariant under translating and
uniformly scaling the pose by k > 0 provided both the original and the
transformed bounding boxes have extent at least 1e-6 in each axis (so that
neither hits the epsilon floor of the scale computation). -/
theorem C3_metrics_similarity_invariant (L : Pose) (k tx ty : ℝ) (hk : 0 < k)
    (hX : 1e-6 ≤ maxX L - minX L) (hY : 1e-6 ≤ maxY L - minY L)
    (hX2 : 1e-6 ≤ maxX (scalePose k tx ty L) - minX (scalePose k tx ty L))
    (hY2 : 1e-6 ≤ maxY (scalePose k tx ty L) - minY (scalePose k tx ty L)) :
    computeMetrics (scalePose k tx ty L) = computeMetrics L := by
  have hX2k : 1e-6 ≤ k * (maxX L - minX L) := by
    rw [maxX_scalePose k tx ty L hk.le, minX_scalePose k tx ty L hk.le] at hX2
    calc (1e-6 : ℝ) ≤ k * maxX L + tx - (k * minX L + tx) := hX2
    _ = k * (maxX L - minX L) := by ring
  have hY2k : 1e-6 ≤ k * (maxY L - minY L) := by
    rw [maxY_scalePose k tx ty L hk.le, minY_scalePose k tx ty L hk.le] at hY2
    calc (1e-6 : ℝ) ≤ k * maxY L + ty - (k * minY L + ty) := hY2
    _ = k * (maxY L - minY L) := by ring
  have hs : scale (scalePose k tx ty L) = k * scale L :=
    scale_scalePose k tx ty L hk hX hY hX2k hY2k
  have hgIM : gapIM (scalePose k tx ty L) = gapIM L := by
    rw [gapIM, gapIM]
    exact normdist_scalePose k tx ty L TIP_I TIP_M hk hs
  have hgMR : gapMR (scalePose k tx ty L) = gapMR L := by
    rw [gapMR, gapMR]
    exact normdist_scalePose k tx ty L TIP_M TIP_R hk hs
  have hgRP : gapRP (scalePose k tx ty L) = gapRP L := by
    rw [gapRP, gapRP]
    exact normdist_scalePose k tx ty L TIP_R TIP_P hk hs
  have hmean : gapMean (scalePose k tx ty L) = gapMean L := by
    rw [gapMean, gapMean, hgIM, hgMR, hgRP]
  have hstdev : gapStdev (scalePose k tx ty L) = gapStdev L := by
    rw [gapStdev, gapStdev, hgIM, hgMR, hgRP, hmean]
  have hcv : cvOf (scalePose k tx ty L) = cvOf L := by
    rw [cvOf, cvOf, hmean, hstdev]
  have hpa : pairAvg (scalePose k tx ty L) = pairAvg L := by
    rw [pairAvg, pairAvg, hgIM, hgRP]
  have hsr : spockRatioOf (scalePose k tx ty L) = spockRatioOf L := by
    rw [spockRatioOf, spockRatioOf, hgMR, hpa]
  have hth : thumbToIndexMCP (scalePose k tx ty L) = thumbToIndexMCP L := by
    rw [thumbToIndexMCP, thumbToIndexMCP]
    exact normdist_scalePose k tx ty L TIP_T INDEX_MCP hk hs
  have hfI : fartherThan (scalePose k tx ty L) TIP_I PIP_I = fartherThan L TIP_I PIP_I :=
    fartherThan_scalePose k tx ty L TIP_I PIP_I hk hs
  have hfM : fartherThan (scalePose k tx ty L) TIP_M PIP_M = fartherThan L TIP_M PIP_M :=
    fartherThan_scalePose k tx ty L TIP_M PIP_M hk hs
  have hfR : fartherThan (scalePose k tx ty L) TIP_R PIP_R = fartherThan L TIP_R PIP_R :=
    fartherThan_scalePose k tx ty L TIP_R PIP_R hk hs
  have hfP : fartherThan (scalePose k tx ty L) TIP_P PIP_P = fartherThan L TIP_P PIP_P :=
    fartherThan_scalePose k tx ty L TIP_P PIP_P hk hs
  have hcos : cosIMOf (scalePose k tx ty L) = cosIMOf L := cosIMOf_scalePose k tx ty L hk
  unfold computeMetrics
  rw [hgIM, hgMR, hgRP, hsr, hcv, hth, hfI, hfM, hfR, hfP, hcos]

/-- pose4: a near-degenerate pose whose bounding box is exactly 1e-6 by
1e-6 — the smallest extent that the claim admits.  Halving it pushes the
extents under the epsilon floor, so the normalised thumb distance changes. -/
noncomputable def pose4 : Pose := fun i =>
  if i = 1 then ⟨0, 1e-6⟩
  else if i = 5 then ⟨1e-6, 0⟩
  else ⟨0, 0⟩

theorem pose4_xs : (poseList pose4).map Pt.x =
    [0, 0, 0, 0, 0, 1e-6, 0, 0, 0, 0, 0, 0, 0, 0, 0, 0, 0, 0, 0, 0, 0] := rfl

theorem pose4_ys : (poseList pose4).map Pt.y =
    [0, 1e-6, 0, 0, 0, 0, 0, 0, 0, 0, 0, 0, 0, 0, 0, 0, 0, 0, 0, 0, 0] := rfl

theorem pose4_minX : minX pose4 = 0 := by
  rw [minX, pose4_xs, show (pose4 0).x = 0 from rfl]
  norm_num [min_def]

theorem pose4_maxX : maxX pose4 = 1e-6 := by
  rw [maxX, pose4_xs, show (pose4 0).x = 0 from rfl]
  norm_num [max_def]

theorem pose4_minY : minY pose4 = 0 := by
  rw [minY, pose4_ys, show (pose4 0).y = 0 from rfl]
  norm_num [min_def]

theorem pose4_maxY : maxY pose4 = 1e-6 := by
  rw [maxY, pose4_ys, show (pose4 0).y = 0 from rfl]
  norm_num [max_def]

theorem pose4_scale : scale pose4 = Real.sqrt 2e-12 := by
  rw [scale, pose4_minX, pose4_maxX, pose4_minY, pose4_maxY]
  norm_num [max_def]

theorem pose4_scaled_scale : scale (scalePose (1 / 2) 0 0 pose4) = Real.sqrt 2e-12 := by
  rw [scale, minX_scalePose (1 / 2) 0 0 pose4 (by norm_num),
    maxX_scalePose (1 / 2) 0 0 pose4 (by norm_num),
    minY_scalePose (1 / 2) 0 0 pose4 (by norm_num),
    maxY_scalePose (1 / 2) 0 0 pose4 (by norm_num),
    pose4_minX, pose4_maxX, pose4_minY, pose4_maxY]
  norm_num [max_def]

theorem pose4_thumbRaw : dist pose4 TIP_T INDEX_MCP = 1e-6 :=
  dist_eval pose4 TIP_T INDEX_MCP 0 0 1e-6 0 1e-6 rfl rfl rfl rfl (by norm_num)
    (by norm_num)

/-- C3 counterexample: pose4 has bounding-box extents exactly 1e-6 in each
axis and k = 1/2 is positive, yet scaling by 1/2 changes the
thumbToIndexMCP field of the metrics: the transformed extents fall below
the epsilon floor, the scale stops tracking the factor k, and the
normalised thumb distance halves.  The claim fails for shrinking
transforms of minimal-extent poses. -/
theorem C3_similarity_invariance_refuted :
    1e-6 ≤ maxX pose4 - minX pose4 ∧ 1e-6 ≤ maxY pose4 - minY pose4 ∧
      (0 : ℝ) < 1 / 2 ∧
      (computeMetrics (scalePose (1 / 2) 0 0 pose4)).thumbToIndexMCP ≠
        (computeMetrics pose4).thumbToIndexMCP := by
  have hsq : (0 : ℝ) < Real.sqrt 2e-12 := Real.sqrt_pos.mpr (by norm_num)
  have ht1 : (computeMetrics pose4).thumbToIndexMCP = 1e-6 / Real.sqrt 2e-12 := by
    rw [computeMetrics_thumb, thumbToIndexMCP, norm, pose4_thumbRaw, pose4_scale]
  have ht2 : (computeMetrics (scalePose (1 / 2) 0 0 pose4)).thumbToIndexMCP =
      1 / 2 * 1e-6 / Real.sqrt 2e-12 := by
    rw [computeMetrics_thumb, thumbToIndexMCP, norm,
      dist_scalePose (1 / 2) 0 0 pose4 TIP_T INDEX_MCP (by norm_num), pose4_thumbRaw,
      pose4_scaled_scale]
  refine ⟨?_, ?_, by norm_num, ?_⟩
  · rw [pose4_minX, pose4_maxX]
    norm_num
  · rw [pose4_minY, pose4_maxY]
    norm_num
  · rw [ht1, ht2]
    intro heq
    rw [div_eq_div_iff (ne_of_gt hsq) (ne_of_gt hsq)] at heq
    nlinarith [hsq]

/-- C3 witness: pose1 doubled and translated keeps its metrics; both
bounding boxes clear the floor. -/
theorem C3_metrics_similarity_invariant_witness :
    ((0 : ℝ) < 2 ∧ 1e-6 ≤ maxX pose1 - minX pose1 ∧ 1e-6 ≤ maxY pose1 - minY pose1 ∧
      1e-6 ≤ maxX (scalePose 2 0.1 0.2 pose1) - minX (scalePose 2 0.1 0.2 pose1) ∧
      1e-6 ≤ maxY (scalePose 2 0.1 0.2 pose1) - minY (scalePose 2 0.1 0.2 pose1)) ∧
      computeMetrics (scalePose 2 0.1 0.2 pose1) = computeMetrics pose1 := by
  have h1 : (0 : ℝ) < 2 := by norm_num
  have h2 : (1e-6 : ℝ) ≤ maxX pose1 - minX pose1 := by
    rw [pose1_maxX, pose1_minX]
    norm_num
  have h3 : (1e-6 : ℝ) ≤ maxY pose1 - minY pose1 := by
    rw [pose1_maxY, pose1_minY]
    norm_num
  have h4 : (1e-6 : ℝ) ≤ maxX (scalePose 2 0.1 0.2 pose1) -
      minX (scalePose 2 0.1 0.2 pose1) := by
    rw [maxX_scalePose 2 0.1 0.2 pose1 (by norm_num),
      minX_scalePose 2 0.1 0.2 pose1 (by norm_num), pose1_maxX, pose1_minX]
    norm_num
  have h5 : (1e-6 : ℝ) ≤ maxY (scalePose 2 0.1 0.2 pose1) -
      minY (scalePose 2 0.1 0.2 pose1) := by
    rw [maxY_scalePose 2 0.1 0.2 pose1 (by norm_num),
      minY_scalePose 2 0.1 0.2 pose1 (by norm_num), pose1_maxY, pose1_minY]
    norm_num
  exact ⟨⟨h1, h2, h3, h4, h5⟩,
    C3_metrics_similarity_invariant pose1 2 0.1 0.2 h1 h2 h3 h4 h5⟩

/-! ## The newer, diverged classifier copy (claim C7)

The repository carries a second, independently evolved copy of the
feature-extraction-plus-classifier module.  Its geometry (distances, scale,
extension and bent tests, gaps, cv, direction cosine) is identical to the
older copy's; what diverges is the thumb handling — named hard (0.33) and
soft (0.31) outward thresholds instead of the single inline 0.34 — the
threshold table, and the rule list, which gains a soft/borderline spock
rule and a loose paper fallback while rock, lizard and both tie-breakers
switch to the soft thumb test. -/

def THUMB_OUT_HARD : ℝ := 0.33

def THUMB_OUT_SOFT : ℝ := 0.31

def THUMB_ALONG : ℝ := 0.28

/-- thumbOutHard of the newer copy. -/
noncomputable def newThumbOutHard (L : Pose) : Bool :=
  decide (thumbToIndexMCP L > THUMB_OUT_HARD)

/-- thumbOutSoft of the newer copy. -/
noncomputable def newThumbOutSoft (L : Pose) : Bool :=
  decide (thumbToIndexMCP L > THUMB_OUT_SOFT)

/-- thumbAlong of the newer copy. -/
noncomputable def newThumbAlong (L : Pose) : Bool :=
  decide (thumbToIndexMCP L < THUMB_ALONG)

/-- spockRatio of the newer copy: gapMR / Math.max(pairAvg, 1e-6). -/
noncomputable def newSpockRatioOf (L : Pose) : ℝ := gapMR L / max (pairAvg L) 1e-6

/-- extendedCount, computed as in both copies. -/
noncomputable def extendedCountOf (L : Pose) : ℕ :=
  (fartherThan L TIP_I PIP_I).toNat + (fartherThan L TIP_M PIP_M).toNat +
    (fartherThan L TIP_R PIP_R).toNat + (fartherThan L TIP_P PIP_P).toNat

/-- maxGap of the newer copy's loose paper rule. -/
noncomputable def maxGap (L : Pose) : ℝ := max (gapIM L) (max (gapMR L) (gapRP L))

/-- minGap of the newer copy's loose paper rule. -/
noncomputable def minGap (L : Pose) : ℝ := min (gapIM L) (min (gapMR L) (gapRP L))

/-- The newer copy's tunables table T. -/
def newT_scissorsIMMaxGap : ℝ := 0.28

def newT_scissorsCosMin : ℝ := 0.80

def newT_paperCV : ℝ := 0.35

def newT_spockRatio : ℝ := 1.45

def newT_spockGapMR : ℝ := 0.18

def newT_pairTight : ℝ := 0.22

/-- The newer copy's metrics bundle: thumbOut is the hard flag. -/
noncomputable def computeMetricsNew (L : Pose) : SignMetrics where
  gapIM := gapIM L
  gapMR := gapMR L
  gapRP := gapRP L
  spockRatio := newSpockRatioOf L
  cv := cvOf L
  thumbToIndexMCP := thumbToIndexMCP L
  thumbOut := newThumbOutHard L
  thumbAlong := newThumbAlong L
  indexExt := fartherThan L TIP_I PIP_I
  middleExt := fartherThan L TIP_M PIP_M
  ringExt := fartherThan L TIP_R PIP_R
  pinkyExt := fartherThan L TIP_P PIP_P
  extendedCount := extendedCountOf L
  cosIM := cosIMOf L

/-- Newer scissors rule (thresholds unchanged from the older copy). -/
abbrev newScissorsCond (L : Pose) : Prop :=
  fartherThan L TIP_I PIP_I = true ∧ fartherThan L TIP_M PIP_M = true ∧
    fartherThan L TIP_R PIP_R = false ∧ fartherThan L TIP_P PIP_P = false ∧
    bent L TIP_R PIP_R = true ∧ bent L TIP_P PIP_P = true ∧
    gapIM L ≤ newT_scissorsIMMaxGap ∧ cosIMOf L ≥ newT_scissorsCosMin

/-- Newer primary spock rule: hard thumb, lowered ratio and floors. -/
abbrev newSpockCond (L : Pose) : Prop :=
  extendedCountOf L = 4 ∧ newSpockRatioOf L > newT_spockRatio ∧
    gapIM L < newT_pairTight ∧ gapRP L < newT_pairTight ∧
    gapMR L > newT_spockGapMR ∧ newThumbOutHard L = true

/-- Newer soft/borderline spock rule, present only in this copy. -/
abbrev newSpockSoftCond (L : Pose) : Prop :=
  extendedCountOf L = 4 ∧
    ((newSpockRatioOf L > newT_spockRatio ∧ gapMR L > newT_spockGapMR - 0.02) ∨
      newSpockRatioOf L > 1.70) ∧
    gapIM L < newT_pairTight + 0.02 ∧ gapRP L < newT_pairTight + 0.02 ∧
    newThumbOutSoft L = true

/-- Newer strict paper rule. -/
abbrev newPaperStrictCond (L : Pose) : Prop :=
  extendedCountOf L = 4 ∧ newThumbAlong L = true ∧ newSpockRatioOf L ≤ 1.35 ∧
    cvOf L < newT_paperCV ∧ gapIM L < 0.30 ∧ gapMR L < 0.30 ∧ gapRP L < 0.30

/-- Newer loose paper fallback, present only in this copy. -/
abbrev newPaperLooseCond (L : Pose) : Prop :=
  extendedCountOf L = 4 ∧ newThumbAlong L = true ∧ newSpockRatioOf L ≤ 1.25 ∧
    maxGap L ≤ 0.32 ∧ maxGap L - minGap L ≤ 0.18

/-- Newer rock rule: soft thumb test. -/
abbrev newRockCond (L : Pose) : Prop :=
  extendedCountOf L ≤ 1 ∧ newThumbOutSoft L = false

/-- Newer lizard rule: soft thumb test. -/
abbrev newLizardCond (L : Pose) : Prop :=
  newThumbOutSoft L = true ∧ fartherThan L TIP_M PIP_M = false ∧
    fartherThan L TIP_R PIP_R = false ∧
    (fartherThan L TIP_I PIP_I = true ∨ fartherThan L TIP_P PIP_P = true)

/-- Newer spock tie-breaker: soft thumb test, lowered gap floor. -/
abbrev newSpockTieCond (L : Pose) : Prop :=
  extendedCountOf L = 4 ∧ newThumbOutSoft L = true ∧ newSpockRatioOf L > 1.35 ∧
    gapMR L > 0.16

/-- Newer lizard tie-breaker: soft thumb test. -/
abbrev newLizardTieCond (L : Pose) : Prop :=
  extendedCountOf L ≤ 2 ∧ newThumbOutSoft L = true

/-- classifySign of the newer copy: nine rules in source order, then
unknown. -/
noncomputable def classifySignNew (L : Pose) : String × SignMetrics :=
  (if newScissorsCond L then "scissors"
   else if newSpockCond L then "spock"
   else if newSpockSoftCond L then "spock"
   else if newPaperStrictCond L then "paper"
   else if newPaperLooseCond L then "paper"
   else if newRockCond L then "rock"
   else if newLizardCond L then "lizard"
   else if newSpockTieCond L then "spock"
   else if newLizardTieCond L then "lizard"
   else "unknown",
   computeMetricsNew L)

/-- The per-frame gesture path over the older classifier copy: classify,
then stabilise at the default capacity 5 (the stabiliser is identical in
both HandDetector versions). -/
noncomputable def framePipelineOld (buffer : List String) (L : Pose) :
    String × List String :=
  stableGesture buffer (classifySign L).1 5

/-- The per-frame gesture path over the newer classifier copy. -/
noncomputable def framePipelineNew (buffer : List String) (L : Pose) :
    String × List String :=
  stableGesture buffer (classifySignNew L).1 5

theorem pose1_newThumbOutSoft : newThumbOutSoft pose1 = true := by
  rw [newThumbOutSoft, pose1_thumb, decide_eq_true_eq]
  norm_num [THUMB_OUT_SOFT]

theorem pose1_newThumbOutHard : newThumbOutHard pose1 = false := by
  rw [newThumbOutHard, pose1_thumb]
  simp only [decide_eq_false_iff_not]
  norm_num [THUMB_OUT_HARD]

theorem pose1_extCount : extendedCountOf pose1 = 2 := by
  rw [extendedCountOf, pose1_indexExt, pose1_middleExt, pose1_ringExt, pose1_pinkyExt]
  rfl

/-- On pose1 the newer copy's soft-thumb lizard rule fires. -/
theorem pose1_newLabel : (classifySignNew pose1).1 = "lizard" := by
  have hcnt := pose1_extCount
  have h1 : ¬newScissorsCond pose1 := by
    rintro ⟨-, h, -⟩
    rw [pose1_middleExt] at h
    exact Bool.false_ne_true h
  have h2 : ¬newSpockCond pose1 := by
    rintro ⟨h, -⟩
    rw [hcnt] at h
    norm_num at h
  have h3 : ¬newSpockSoftCond pose1 := by
    rintro ⟨h, -⟩
    rw [hcnt] at h
    norm_num at h
  have h4 : ¬newPaperStrictCond pose1 := by
    rintro ⟨h, -⟩
    rw [hcnt] at h
    norm_num at h
  have h5 : ¬newPaperLooseCond pose1 := by
    rintro ⟨h, -⟩
    rw [hcnt] at h
    norm_num at h
  have h6 : ¬newRockCond pose1 := by
    rintro ⟨h, -⟩
    rw [hcnt] at h
    norm_num at h
  have h7 : newLizardCond pose1 :=
    ⟨pose1_newThumbOutSoft, pose1_middleExt, pose1_ringExt, Or.inl pose1_indexExt⟩
  unfold classifySignNew
  rw [if_neg h1, if_neg h2, if_neg h3, if_neg h4, if_neg h5, if_neg h6, if_pos h7]

/-- C7: the repository's two classifier copies genuinely diverge.  On
pose1 (thumb distance 0.32, index and pinky extended, middle and ring
curled) the older copy returns unknown while the newer copy's soft-thumb
lizard rule returns lizard, so the per-frame gesture paths built on them
differ; their threshold tables disagree (spock ratio 1.45 vs 1.6, split
floor 0.18 vs 0.23, pair tightness 0.22 vs 0.24, paper cv 0.35 vs 0.22,
hard thumb 0.33 vs the older inline 0.34); and the newer copy's
hard-versus-soft thumb distinction is real and absent from the older copy:
at pose1 the soft flag is set and the hard flag is not, while the older
copy's single thumbOut (and thumbAlong) are both false. -/
theorem C7_classifier_copies_diverge :
    (classifySign pose1).1 = "unknown" ∧
      (classifySignNew pose1).1 = "lizard" ∧
      framePipelineOld [] pose1 ≠ framePipelineNew [] pose1 ∧
      (newT_spockRatio ≠ T_spockRatio ∧ newT_spockGapMR ≠ T_spockGapMR ∧
        newT_pairTight ≠ T_pairTight ∧ newT_paperCV ≠ T_paperCV ∧
        THUMB_OUT_HARD ≠ (0.34 : ℝ)) ∧
      (THUMB_OUT_SOFT < THUMB_OUT_HARD ∧
        newThumbOutSoft pose1 = true ∧ newThumbOutHard pose1 = false ∧
        (computeMetrics pose1).thumbOut = false ∧
        (computeMetrics pose1).thumbAlong = false) := by
  have hta : (computeMetrics pose1).thumbAlong = false := by
    rw [computeMetrics_thumbAlong, pose1_thumb]
    simp only [decide_eq_false_iff_not]
    norm_num
  refine ⟨pose1_label, pose1_newLabel, ?_, ⟨?_, ?_, ?_, ?_, ?_⟩,
    ⟨?_, pose1_newThumbOutSoft, pose1_newThumbOutHard, pose1_thumbOut, hta⟩⟩
  · rw [framePipelineOld, framePipelineNew, pose1_label, pose1_newLabel]
    decide
  · norm_num [newT_spockRatio, T_spockRatio]
  · norm_num [newT_spockGapMR, T_spockGapMR]
  · norm_num [newT_pairTight, T_pairTight]
  · norm_num [newT_paperCV, T_paperCV]
  · norm_num [THUMB_OUT_HARD]
  · norm_num [THUMB_OUT_SOFT, THUMB_OUT_HARD]

end RPSLS
